import Mathlib

/-!
Verification of the depth-estimation fine-tuning notebook
(`src/Dinov2/dinov2_lightning.ipynb`).

The notebook defines two pieces of custom logic:

* `DPTLightningModule` — a training wrapper around a pretrained DPT model.
  Its constructor freezes every parameter, then unfreezes the last two
  transformer-encoder layers of the backbone and the prediction head.
  `common_step` computes an MSE loss, `training_step` / `validation_step`
  log and return it, and `configure_optimizers` returns a single Adam
  optimizer over all parameters.
* `CustomNYUDataset` — a dataset adapter that preprocesses an image with an
  external processor and resizes the depth map, returning a mapping with
  keys `pixel_values` and `labels`; `collate_fn` stacks a list of such
  items into a batch.

We embed these shallowly: tensors are a shape together with flat rational
data, model parameters carry an explicit `requires_grad` flag, and the
external collaborators (image processor, torchvision `Resize`, autograd,
the Lightning trainer's early stopping) are modelled as explicit functions
or, where the repository contains only their call sites, modelled from the
spec as noted on the relevant definitions.
-/

/-- A numeric tensor: a shape together with row-major flat data.
Well-formedness (`data.length = shape.prod`) is carried as a hypothesis
where a statement needs it. -/
structure Tensor where
  shape : List Nat
  data : List ℚ
  deriving Repr, DecidableEq

/-- A model parameter: an identifying name, a current value, and the
`requires_grad` flag that marks it trainable. -/
structure Param where
  name : String
  value : ℚ
  requires_grad : Bool
  deriving Repr, DecidableEq

/-- The relevant structure of the pretrained `DPTForDepthEstimation` model:
the backbone's encoder layers (`model.backbone.encoder.layer`, each a list
of parameters), the prediction head (`model.head`), and all remaining
parameters of the model. -/
structure DPTModel where
  encoderLayers : List (List Param)
  head : List Param
  rest : List Param
  deriving Repr, DecidableEq

/-- Set a parameter's `requires_grad` flag (the effect of
`param.requires_grad = b`). -/
def setGrad (b : Bool) (p : Param) : Param :=
  { p with requires_grad := b }

/-- `for param in self.model.parameters(): param.requires_grad = False` —
freeze every parameter of the model. -/
def freezeAll (m : DPTModel) : DPTModel :=
  { encoderLayers := m.encoderLayers.map (List.map (setGrad false))
    head := m.head.map (setGrad false)
    rest := m.rest.map (setGrad false) }

/-- `for layer in self.model.backbone.encoder.layer[-2:]: ...` — unfreeze
every parameter of the last two encoder layers (Python `l[-2:]` is the
whole list when it has fewer than two elements, matched here by the
truncated subtraction in `List.drop`). -/
def unfreezeLastTwo (m : DPTModel) : DPTModel :=
  let k := m.encoderLayers.length - 2
  let lastTwo := List.map (List.map (setGrad true)) (m.encoderLayers.drop k)
  { m with encoderLayers := m.encoderLayers.take k ++ lastTwo }

/-- `for param in self.model.head.parameters(): param.requires_grad = True`. -/
def unfreezeHead (m : DPTModel) : DPTModel :=
  { m with head := m.head.map (setGrad true) }

/-- `DPTLightningModule.__init__`: after loading the pretrained model,
freeze all parameters, unfreeze the last two encoder layers, then unfreeze
the head. -/
def initModule (m : DPTModel) : DPTModel :=
  unfreezeHead (unfreezeLastTwo (freezeAll m))

/-- All parameters of the model, as iterated by `self.parameters()`. -/
def allParams (m : DPTModel) : List Param :=
  m.encoderLayers.flatten ++ m.head ++ m.rest

/-- A batch as produced by `collate_fn` and consumed by `common_step`:
a mapping with keys `pixel_values` and `labels`. -/
structure Batch where
  pixel_values : Tensor
  labels : Tensor
  deriving Repr, DecidableEq

/-- `torch.nn.functional.mse_loss` with its default `reduction='mean'`:
the mean of the squared elementwise differences. -/
def mse_loss (input target : Tensor) : ℚ :=
  (List.zipWith (fun a b => (a - b) ^ 2) input.data target.data).sum /
    input.data.length

/-- `DPTLightningModule.forward`: run the wrapped model on the input and
return its `predicted_depth`.  The numeric computation of the pretrained
network is external; it is passed in as `run`.  The module's parameter
state is returned unchanged — the method performs no mutation of it. -/
def forwardOp (run : DPTModel → Tensor → Tensor) (m : DPTModel)
    (x : Tensor) : Tensor × DPTModel :=
  (run m x, m)

/-- `DPTLightningModule.common_step`: read `batch['pixel_values']` and
`batch['labels']`, compute `preds = self(pixel_values)` and return
`mse_loss(preds, labels)`.  The parameter state is returned unchanged. -/
def common_step (run : DPTModel → Tensor → Tensor) (m : DPTModel)
    (batch : Batch) : ℚ × DPTModel :=
  let pixel_values := batch.pixel_values
  let labels := batch.labels
  let preds := (forwardOp run m pixel_values).1
  (mse_loss preds labels, m)

/-- One logged metric: the name passed to `self.log`, the scalar value,
and the `on_step` / `on_epoch` aggregation flags in force for the call. -/
structure LogEntry where
  name : String
  value : ℚ
  on_step : Bool
  on_epoch : Bool
  deriving Repr, DecidableEq

/-- `DPTLightningModule.training_step`: compute the `common_step` loss,
`self.log("training_loss", loss)` (Lightning's defaults inside a training
step log per step: `on_step=True, on_epoch=False`), and return the loss. -/
def training_step (run : DPTModel → Tensor → Tensor) (m : DPTModel)
    (batch : Batch) : (ℚ × List LogEntry) × DPTModel :=
  let (loss, m') := common_step run m batch
  ((loss, [⟨"training_loss", loss, true, false⟩]), m')

/-- `DPTLightningModule.validation_step`: compute the `common_step` loss,
`self.log("validation_loss", loss, on_epoch=True)` (inside a validation
step Lightning logs per epoch, not per step: `on_step=False`), and return
the loss. -/
def validation_step (run : DPTModel → Tensor → Tensor) (m : DPTModel)
    (batch : Batch) : (ℚ × List LogEntry) × DPTModel :=
  let (loss, m') := common_step run m batch
  ((loss, [⟨"validation_loss", loss, false, true⟩]), m')

/-- The optimizer algorithms the embedding distinguishes. -/
inductive OptimKind
  | adam
  | sgd
  deriving Repr, DecidableEq

/-- An optimizer instance: its algorithm and its parameter list. -/
structure Optimizer where
  kind : OptimKind
  params : List Param
  deriving Repr, DecidableEq

/-- `DPTLightningModule.configure_optimizers`: return
`torch.optim.Adam(self.parameters())` — a single Adam instance over all of
the wrapper's parameters.  The parameter state is returned unchanged. -/
def configure_optimizers (m : DPTModel) : List Optimizer × DPTModel :=
  ([⟨OptimKind.adam, allParams m⟩], m)

/-- Modelled from the spec: one parameter update by the external
optimizer's step.  Gradient computation being disabled for a frozen
parameter, autograd leaves its gradient absent, and the optimizer skips a
parameter with no gradient, leaving it unchanged; a parameter with a
gradient is updated by the optimizer's update rule `upd`. -/
def optimizerStep (upd : ℚ → ℚ → ℚ) (grads : Param → Option ℚ)
    (p : Param) : Param :=
  match grads p with
  | none => p
  | some g => { p with value := upd p.value g }

/-- One raw example of the underlying NYU dataset: an `image` and a
`depth_map`. -/
structure RawItem where
  image : Tensor
  depth_map : Tensor
  deriving Repr, DecidableEq

/-- One adapter output: a mapping with keys `pixel_values` and `labels`. -/
structure Item where
  pixel_values : Tensor
  labels : Tensor
  deriving Repr, DecidableEq

/-- `self.dataset[idx]` on the underlying dataset: the item at `idx`, or
the underlying dataset's index error when `idx` is out of range. -/
def datasetFetch (d : List RawItem) (idx : Nat) : Except String RawItem :=
  match d.get? idx with
  | some item => Except.ok item
  | none => Except.error "IndexError"

/-- `torchvision.transforms.Resize(size)` applied to a 2-D depth map,
modelled with nearest-neighbour resampling: the output always has the
target `(height, width)` shape; only the shape and determinism of this
external transform matter to the notebook's logic. -/
def Resize (size : Nat × Nat) (t : Tensor) : Tensor :=
  match t.shape with
  | [h, w] =>
    { shape := [size.1, size.2]
      data := (List.range size.1).flatMap fun i =>
        (List.range size.2).map fun j =>
          t.data.getD ((i * h / size.1) * w + j * w / size.2) 0 }
  | _ => t

/-- `CustomNYUDataset`: the underlying dataset, the external image
processor (composed with the `.squeeze()` applied to its output), and the
`output_size` stored by the constructor. -/
structure CustomNYUDataset where
  dataset : List RawItem
  processor : Tensor → Tensor
  output_size : Nat × Nat

/-- `CustomNYUDataset.__len__`: the length of the underlying dataset. -/
def CustomNYUDataset.len (self : CustomNYUDataset) : Nat :=
  self.dataset.length

/-- `CustomNYUDataset.__getitem__`: fetch the item at `idx` (propagating
the underlying dataset's error), process the image with the external
processor, resize the depth map with `Resize((576, 736))` — the hard-coded
size literal in the source — and return the mapping
`{"pixel_values": ..., "labels": ...}`. -/
def CustomNYUDataset.getitem (self : CustomNYUDataset) (idx : Nat) :
    Except String Item :=
  match datasetFetch self.dataset idx with
  | Except.error e => Except.error e
  | Except.ok item =>
    let input_tensor := self.processor item.image
    let depth_map_resized := Resize (576, 736) item.depth_map
    let depth_map_tensor := depth_map_resized
    Except.ok { pixel_values := input_tensor, labels := depth_map_tensor }

/-- `torch.stack`: stack a list of equal-shape tensors along a new leading
dimension; on an empty list `torch.stack` raises. -/
def stack (ts : List Tensor) : Except String Tensor :=
  match ts with
  | [] => Except.error "stack expects a non-empty list of tensors"
  | t :: _ =>
    Except.ok { shape := ts.length :: t.shape
                data := (ts.map Tensor.data).flatten }

/-- `collate_fn`: extract the `pixel_values` and `labels` of every item,
stack each field independently, and return the batch mapping with the same
two keys. -/
def collate_fn (batch : List Item) : Except String Batch :=
  match stack (batch.map Item.pixel_values) with
  | Except.error e => Except.error e
  | Except.ok pixel_values =>
    match stack (batch.map Item.labels) with
    | Except.error e => Except.error e
    | Except.ok labels =>
      Except.ok { pixel_values := pixel_values, labels := labels }

/-- The early-stopping configuration the notebook passes to the external
trainer: `EarlyStopping(monitor='validation_loss', patience=5,
strict=False, verbose=False, mode='min')`. -/
structure ESConfig where
  monitor : String
  patience : Nat
  mode : String
  strict : Bool
  deriving Repr, DecidableEq

/-- The notebook's `early_stop_callback`. -/
def early_stop_callback : ESConfig :=
  { monitor := "validation_loss", patience := 5, mode := "min"
    strict := false }

/-- Modelled from the spec: the state of the external trainer's
early-stopping monitor (the `EarlyStopping` callback is part of the
external framework; only its construction appears in the repository).
`best` is the best monitored value seen so far (`none` before the first
epoch), `wait` the count of consecutive epochs without improvement. -/
structure ESState where
  best : Option ℚ
  wait : Nat
  deriving Repr, DecidableEq

/-- Modelled from the spec: whether a monitored value improves on the best
seen so far, in `mode='min'` — any value improves on no history, and
otherwise the value must strictly decrease the best. -/
def esImproved (st : ESState) (metric : ℚ) : Bool :=
  match st.best with
  | none => true
  | some b => metric < b

/-- Modelled from the spec: one per-epoch check of the monitor.  An
improving value becomes the new best and resets the wait counter; a
non-improving value increments it, and the monitor signals a halt once the
counter reaches the configured patience. -/
def esStep (patience : Nat) (st : ESState) (metric : ℚ) : ESState × Bool :=
  if esImproved st metric then (⟨some metric, 0⟩, false)
  else
    (⟨st.best, st.wait + 1⟩, decide (patience ≤ st.wait + 1))

/-- The outcome of the external trainer's epoch loop: a graceful
early stop after some epoch, or completion of all scheduled epochs. -/
inductive FitOutcome
  | earlyStopped (epoch : Nat)
  | completed
  deriving Repr, DecidableEq

/-- Modelled from the spec: the external trainer's epoch loop.  Each
epoch produces one monitored validation-loss value; after each epoch the
monitor is consulted exactly once, and the loop halts gracefully as soon
as it signals, otherwise it runs through the scheduled epochs. -/
def esLoop (patience : Nat) : ESState → Nat → List ℚ → FitOutcome
  | _, _, [] => FitOutcome.completed
  | st, e, metric :: ms =>
    let step := esStep patience st metric
    if step.2 then FitOutcome.earlyStopped (e + 1)
    else esLoop patience step.1 (e + 1) ms

/-- Modelled from the spec: `trainer.fit` as seen by the early-stopping
monitor — the epoch loop started from the empty monitoring history. -/
def trainerFit (patience : Nat) (metrics : List ℚ) : FitOutcome :=
  esLoop patience ⟨none, 0⟩ 0 metrics

/-! ### Concrete fixtures

A tiny concrete instantiation of the data model, mirroring the notebook's
objects: a raw NYU example with a 480×640 image and depth map, an identity
stand-in for the external image processor, and the `train_dataset`
constructed — as in the notebook — with the probed `model_output_size`. -/

/-- A 480×640 RGB image, the resolution observed in the dataset. -/
def rawImage : Tensor :=
  { shape := [480, 640, 3], data := List.replicate (480 * 640 * 3) 1 }

/-- A 480×640 depth map. -/
def rawDepthMap : Tensor :=
  { shape := [480, 640], data := List.replicate (480 * 640) (3 / 2) }

/-- One raw example of the underlying dataset. -/
def rawExample : RawItem :=
  { image := rawImage, depth_map := rawDepthMap }

/-- A concrete stand-in for the external image processor. -/
def procId : Tensor → Tensor := fun t => t

/-- The probed model output size the notebook assigns before building the
datasets: `model_output_size = (544, 736)`. -/
def model_output_size : Nat × Nat := (544, 736)

/-- `train_dataset = CustomNYUDataset(train_data_slice, processor,
model_output_size)` over the one-example concrete slice. -/
def train_dataset : CustomNYUDataset :=
  { dataset := [rawExample], processor := procId
    output_size := model_output_size }

/-- A concrete parameter, used to populate the concrete model. -/
def mkParam (s : String) (v : ℚ) (b : Bool) : Param :=
  { name := s, value := v, requires_grad := b }

/-- A concrete pretrained model with three encoder layers, a head and one
further (embedding) parameter, with mixed initial `requires_grad` flags. -/
def concreteModel : DPTModel :=
  { encoderLayers := [[mkParam "e0.w" 1 true], [mkParam "e1.w" 2 false],
      [mkParam "e2.w" 3 false]]
    head := [mkParam "head.w" 4 false]
    rest := [mkParam "embed.w" 5 true] }

/-! ### Helper lemmas -/

/-- The encoder layers of the constructed module, split at the source's
`layer[-2:]` boundary: the frozen copies of all layers, with the last two
re-marked trainable. -/
lemma initModule_encoderLayers (m : DPTModel) :
    (initModule m).encoderLayers =
      (m.encoderLayers.map (List.map (setGrad false))).take
          ((m.encoderLayers.map (List.map (setGrad false))).length - 2) ++
        ((m.encoderLayers.map (List.map (setGrad false))).drop
          ((m.encoderLayers.map (List.map (setGrad false))).length - 2)).map
          (List.map (setGrad true)) := rfl

/-- The head of the constructed module: frozen, then unfrozen. -/
lemma initModule_head (m : DPTModel) :
    (initModule m).head = (m.head.map (setGrad false)).map (setGrad true) :=
  rfl

/-- The remaining parameters of the constructed module: frozen. -/
lemma initModule_rest (m : DPTModel) :
    (initModule m).rest = m.rest.map (setGrad false) := rfl

/-- Freezing and unfreezing do not change the number of encoder layers. -/
lemma initModule_encoderLayers_length (m : DPTModel) :
    (initModule m).encoderLayers.length = m.encoderLayers.length := by
  rw [initModule_encoderLayers]
  simp only [List.length_append, List.length_take, List.length_map,
    List.length_drop]
  omega

/-- `C2`: after `DPTLightningModule.__init__`, the parameters of the last
two encoder layers and of the head have `requires_grad = true`, every
other parameter has `requires_grad = false`, and none of the wrapper's
operations (`forward`, `common_step`, `training_step`, `validation_step`,
`configure_optimizers`) changes the parameter state. -/
theorem c2_parameter_partition (m : DPTModel) :
    (∀ layer ∈ (initModule m).encoderLayers.take
        ((initModule m).encoderLayers.length - 2),
      ∀ p ∈ layer, p.requires_grad = false) ∧
    (∀ layer ∈ (initModule m).encoderLayers.drop
        ((initModule m).encoderLayers.length - 2),
      ∀ p ∈ layer, p.requires_grad = true) ∧
    (∀ p ∈ (initModule m).head, p.requires_grad = true) ∧
    (∀ p ∈ (initModule m).rest, p.requires_grad = false) ∧
    (∀ run x, forwardOp run (initModule m) x =
      (run (initModule m) x, initModule m)) ∧
    (∀ run batch, (common_step run (initModule m) batch).2 = initModule m) ∧
    (∀ run batch, (training_step run (initModule m) batch).2 =
      initModule m) ∧
    (∀ run batch, (validation_step run (initModule m) batch).2 =
      initModule m) ∧
    (configure_optimizers (initModule m)).2 = initModule m := by
  have hlen : ((m.encoderLayers.map (List.map (setGrad false))).take
      ((m.encoderLayers.map (List.map (setGrad false))).length - 2)).length =
      m.encoderLayers.length - 2 := by
    simp only [List.length_take, List.length_map]
    omega
  refine ⟨?_, ?_, ?_, ?_, fun _ _ => rfl, fun _ _ => rfl, fun _ _ => rfl,
    fun _ _ => rfl, rfl⟩
  · intro layer hlayer p hp
    rw [initModule_encoderLayers_length, initModule_encoderLayers,
      List.take_left' hlen] at hlayer
    have hmem := List.mem_of_mem_take hlayer
    rcases List.mem_map.mp hmem with ⟨l, _, rfl⟩
    rcases List.mem_map.mp hp with ⟨q, _, rfl⟩
    rfl
  · intro layer hlayer p hp
    rw [initModule_encoderLayers_length, initModule_encoderLayers,
      List.drop_left' hlen] at hlayer
    rcases List.mem_map.mp hlayer with ⟨l, _, rfl⟩
    rcases List.mem_map.mp hp with ⟨q, _, rfl⟩
    rfl
  · intro p hp
    rw [initModule_head] at hp
    rcases List.mem_map.mp hp with ⟨q, _, rfl⟩
    rfl
  · intro p hp
    rw [initModule_rest] at hp
    rcases List.mem_map.mp hp with ⟨q, _, rfl⟩
    rfl

/-- `C2` witness: on the concrete model, the head parameter ends up
trainable and the embedding parameter frozen. -/
theorem c2_parameter_partition_witness :
    (mkParam "head.w" 4 true).requires_grad = true ∧
    (mkParam "embed.w" 5 false).requires_grad = false :=
  ⟨(c2_parameter_partition concreteModel).2.2.1 (mkParam "head.w" 4 true)
      (by decide),
   (c2_parameter_partition concreteModel).2.2.2.1 (mkParam "embed.w" 5 false)
      (by decide)⟩

/-- Auxiliary: `List.zipWith` as a map over `List.zip`. -/
lemma zipWith_eq_map_zip (f : ℚ → ℚ → ℚ) : ∀ (l₁ l₂ : List ℚ),
    List.zipWith f l₁ l₂ = (l₁.zip l₂).map fun pr => f pr.1 pr.2
  | [], _ => by simp
  | _ :: _, [] => by simp
  | a :: l₁, b :: l₂ => by
    simp only [List.zipWith_cons_cons, List.zip_cons_cons, List.map_cons]
    exact congrArg _ (zipWith_eq_map_zip f l₁ l₂)

/-- `C3`: for every batch, `common_step` computes the elementwise
mean-squared-error between the model's predictions on
`batch['pixel_values']` and `batch['labels']` — the mean over all elements
of the squared elementwise differences — given that predictions and labels
have exactly the same shape. -/
theorem c3_common_step_is_mse (run : DPTModel → Tensor → Tensor)
    (m : DPTModel) (batch : Batch)
    (hshape : (run m batch.pixel_values).shape = batch.labels.shape)
    (hwp : (run m batch.pixel_values).data.length =
      (run m batch.pixel_values).shape.prod) :
    (common_step run m batch).1 =
      (((run m batch.pixel_values).data.zip batch.labels.data).map
        fun pr => (pr.1 - pr.2) ^ 2).sum / (batch.labels.shape.prod : ℚ) := by
  show mse_loss (run m batch.pixel_values) batch.labels = _
  rw [mse_loss, zipWith_eq_map_zip, hwp, hshape]

/-- `C3` witness: with the identity network on a batch of two one-element
tensors, the loss is the mean of the squared differences. -/
theorem c3_common_step_is_mse_witness :
    (common_step (fun _ t => t) concreteModel
        ⟨⟨[2], [1, 2]⟩, ⟨[2], [3, 5]⟩⟩).1 =
      ((((fun (_ : DPTModel) (t : Tensor) => t) concreteModel
          (⟨[2], [1, 2]⟩ : Tensor)).data.zip
            ((⟨[2], [3, 5]⟩ : Tensor) : Tensor).data).map
        fun pr => (pr.1 - pr.2) ^ 2).sum /
        ((([2] : List Nat).prod : Nat) : ℚ) :=
  c3_common_step_is_mse (fun _ t => t) concreteModel
    ⟨⟨[2], [1, 2]⟩, ⟨[2], [3, 5]⟩⟩ (by decide) (by decide)

/-- `C8`: `training_step` returns the `common_step` loss and logs it as
`training_loss` per step; `validation_step` returns the identical
`common_step` loss and logs it as `validation_loss` with per-epoch
aggregation. -/
theorem c8_step_logging (run : DPTModel → Tensor → Tensor) (m : DPTModel)
    (batch : Batch) :
    (training_step run m batch).1.1 = (common_step run m batch).1 ∧
    (training_step run m batch).1.2 =
      [⟨"training_loss", (common_step run m batch).1, true, false⟩] ∧
    (validation_step run m batch).1.1 = (common_step run m batch).1 ∧
    (validation_step run m batch).1.2 =
      [⟨"validation_loss", (common_step run m batch).1, false, true⟩] ∧
    (validation_step run m batch).1.1 = (training_step run m batch).1.1 :=
  ⟨rfl, rfl, rfl, rfl, rfl⟩

/-- `C10`: `configure_optimizers` returns a single Adam optimizer over all
of the wrapper's parameters — the frozen ones included — and a parameter
whose gradient computation is disabled receives no gradient and is left
unchanged by an optimizer step. -/
theorem c10_single_adam_over_all_params (m : DPTModel) :
    (configure_optimizers m).1 = [⟨OptimKind.adam, allParams m⟩] ∧
    (∀ opt ∈ (configure_optimizers m).1,
      opt.kind = OptimKind.adam ∧ opt.params = allParams m) ∧
    (∀ p : Param, p ∈ allParams m ↔
      (p ∈ m.encoderLayers.flatten ∨ p ∈ m.head ∨ p ∈ m.rest)) ∧
    (∀ (upd : ℚ → ℚ → ℚ) (grads : Param → Option ℚ),
      (∀ q : Param, q.requires_grad = false → grads q = none) →
      ∀ p : Param, p.requires_grad = false →
        optimizerStep upd grads p = p) := by
  refine ⟨rfl, ?_, ?_, ?_⟩
  · intro opt hopt
    rcases List.mem_singleton.mp hopt with rfl
    exact ⟨rfl, rfl⟩
  · intro p
    simp [allParams, List.mem_append, or_assoc]
  · intro upd grads hgrads p hp
    rw [optimizerStep, hgrads p hp]

/-- `C10` witness: on the concrete model, the optimizer list is the one
Adam instance over all parameters, and the frozen embedding parameter is
unchanged by an optimizer step when autograd gives it no gradient. -/
theorem c10_single_adam_over_all_params_witness :
    (configure_optimizers concreteModel).1 =
      [⟨OptimKind.adam, allParams concreteModel⟩] ∧
    optimizerStep (fun v g => v - g) (fun _ => none)
      (mkParam "embed.w" 5 false) = mkParam "embed.w" 5 false :=
  ⟨(c10_single_adam_over_all_params concreteModel).1,
   (c10_single_adam_over_all_params concreteModel).2.2.2
      (fun v g => v - g) (fun _ => none) (fun _ _ => rfl)
      (mkParam "embed.w" 5 false) rfl⟩

/-- `C4`: `__getitem__` never reads the stored `output_size` — its result
is the same for any two configured sizes, `__len__` likewise, and for an
in-range index with a 2-D depth map the returned `labels` tensor has the
hard-coded shape `(576, 736)`. -/
theorem c4_output_size_never_read (d : List RawItem)
    (proc : Tensor → Tensor) (sz sz' : Nat × Nat) (idx : Nat)
    (item : RawItem) (h w : Nat) (hfetch : d.get? idx = some item)
    (hdm : item.depth_map.shape = [h, w]) :
    CustomNYUDataset.getitem ⟨d, proc, sz⟩ idx =
      CustomNYUDataset.getitem ⟨d, proc, sz'⟩ idx ∧
    CustomNYUDataset.len ⟨d, proc, sz⟩ =
      CustomNYUDataset.len ⟨d, proc, sz'⟩ ∧
    ∃ it, CustomNYUDataset.getitem ⟨d, proc, sz⟩ idx = Except.ok it ∧
      it.labels.shape = [576, 736] := by
  refine ⟨rfl, rfl, ⟨proc item.image, Resize (576, 736) item.depth_map⟩,
    ?_, ?_⟩
  · unfold CustomNYUDataset.getitem datasetFetch
    rw [hfetch]
  · unfold Resize
    rw [hdm]

/-- `C4` witness: on the concrete dataset, the two sizes `(544, 736)` and
`(100, 100)` give identical items, whose labels have shape `(576, 736)`. -/
theorem c4_output_size_never_read_witness :
    CustomNYUDataset.getitem ⟨[rawExample], procId, (544, 736)⟩ 0 =
      CustomNYUDataset.getitem ⟨[rawExample], procId, (100, 100)⟩ 0 ∧
    CustomNYUDataset.len ⟨[rawExample], procId, (544, 736)⟩ =
      CustomNYUDataset.len ⟨[rawExample], procId, (100, 100)⟩ ∧
    ∃ it, CustomNYUDataset.getitem ⟨[rawExample], procId, (544, 736)⟩ 0 =
      Except.ok it ∧ it.labels.shape = [576, 736] :=
  c4_output_size_never_read [rawExample] procId (544, 736) (100, 100) 0
    rawExample 480 640 rfl rfl

/-- `C1`: the notebook's `train_dataset` is constructed with the probed
`model_output_size = (544, 736)`, yet `__getitem__` returns a `labels`
tensor of shape `(576, 736)` — not the configured target shape. -/
theorem c1_labels_not_configured_size :
    train_dataset.output_size = model_output_size ∧
    model_output_size = (544, 736) ∧
    ∃ it, train_dataset.getitem 0 = Except.ok it ∧
      it.labels.shape = [576, 736] ∧
      it.labels.shape ≠
        [train_dataset.output_size.1, train_dataset.output_size.2] := by
  refine ⟨rfl, rfl, ⟨procId rawImage, Resize (576, 736) rawDepthMap⟩,
    rfl, rfl, ?_⟩
  decide

/-- `C6`: two calls of `__getitem__` on the same dataset at the same index
yield identical `pixel_values` and `labels` tensors. -/
theorem c6_getitem_deterministic (self : CustomNYUDataset) (idx : Nat)
    (r₁ r₂ : Item) (h₁ : self.getitem idx = Except.ok r₁)
    (h₂ : self.getitem idx = Except.ok r₂) :
    r₁.pixel_values = r₂.pixel_values ∧ r₁.labels = r₂.labels := by
  have h := h₁.symm.trans h₂
  injection h with h
  exact ⟨congrArg Item.pixel_values h, congrArg Item.labels h⟩

/-- The item two independent evaluations of `__getitem__` at index 0 of
the concrete dataset both produce. -/
def firstItem : Item :=
  { pixel_values := procId rawImage, labels := Resize (576, 736) rawDepthMap }

/-- `C6` witness: two calls at index 0 of the concrete dataset agree. -/
theorem c6_getitem_deterministic_witness :
    firstItem.pixel_values = firstItem.pixel_values ∧
    firstItem.labels = firstItem.labels :=
  c6_getitem_deterministic train_dataset 0 firstItem firstItem rfl rfl

/-- `C9`: for an index at or beyond the dataset length, `__getitem__`
produces exactly the underlying dataset's index error; for an in-range
index it succeeds. -/
theorem c9_index_errors_propagate (self : CustomNYUDataset) (idx : Nat) :
    (self.len ≤ idx →
      self.getitem idx = Except.error "IndexError" ∧
      datasetFetch self.dataset idx = Except.error "IndexError") ∧
    (idx < self.len → ∃ it, self.getitem idx = Except.ok it) := by
  constructor
  · intro hge
    have hnone : self.dataset.get? idx = none := List.get?_eq_none.mpr hge
    constructor
    · unfold CustomNYUDataset.getitem datasetFetch
      rw [hnone]
    · unfold datasetFetch
      rw [hnone]
  · intro hlt
    have hsome := List.get?_eq_get (show idx < self.dataset.length from hlt)
    refine ⟨⟨self.processor (self.dataset.get ⟨idx, hlt⟩).image,
      Resize (576, 736) (self.dataset.get ⟨idx, hlt⟩).depth_map⟩, ?_⟩
    unfold CustomNYUDataset.getitem datasetFetch
    rw [hsome]

/-- `C9` witness: on the one-example concrete dataset, index 5 fails with
the propagated index error and index 0 succeeds. -/
theorem c9_index_errors_propagate_witness :
    (train_dataset.getitem 5 = Except.error "IndexError" ∧
      datasetFetch train_dataset.dataset 5 = Except.error "IndexError") ∧
    (∃ it, train_dataset.getitem 0 = Except.ok it) :=
  ⟨(c9_index_errors_propagate train_dataset 5).1 (by decide),
   (c9_index_errors_propagate train_dataset 0).2 (by decide)⟩

/-- `C7`: on a non-empty list of items whose `pixel_values` share one
shape and whose `labels` share one shape, `collate_fn` returns a batch
whose two tensors each have leading dimension the list length and
otherwise the per-item shape. -/
theorem c7_collate_stacks (batch : List Item) (ps ls : List Nat)
    (hne : batch ≠ [])
    (hp : ∀ it ∈ batch, it.pixel_values.shape = ps)
    (hl : ∀ it ∈ batch, it.labels.shape = ls) :
    ∃ b, collate_fn batch = Except.ok b ∧
      b.pixel_values.shape = batch.length :: ps ∧
      b.labels.shape = batch.length :: ls := by
  cases batch with
  | nil => exact absurd rfl hne
  | cons it rest =>
    refine ⟨⟨⟨((rest.map Item.pixel_values).length + 1) ::
        it.pixel_values.shape,
        ((it.pixel_values :: rest.map Item.pixel_values).map
          Tensor.data).flatten⟩,
      ⟨((rest.map Item.labels).length + 1) :: it.labels.shape,
        ((it.labels :: rest.map Item.labels).map Tensor.data).flatten⟩⟩,
      rfl, ?_, ?_⟩
    · simp [List.length_map, hp it (List.mem_cons_self it rest)]
    · simp [List.length_map, hl it (List.mem_cons_self it rest)]

/-- An adapter output with a 3×2×2 image tensor and a 2×3 label tensor. -/
def smallItem : Item :=
  { pixel_values := ⟨[3, 2, 2], List.replicate 12 1⟩
    labels := ⟨[2, 3], [1, 2, 3, 4, 5, 6]⟩ }

/-- `C7` witness: collating two identical-shape items yields leading
dimension 2 with the per-item shapes unchanged. -/
theorem c7_collate_stacks_witness :
    ∃ b, collate_fn [smallItem, smallItem] = Except.ok b ∧
      b.pixel_values.shape = [smallItem, smallItem].length :: [3, 2, 2] ∧
      b.labels.shape = [smallItem, smallItem].length :: [2, 3] :=
  c7_collate_stacks [smallItem, smallItem] [3, 2, 2] [2, 3] (by decide)
    (by decide) (by decide)

/-- Auxiliary: one unfolding of the epoch loop. -/
lemma esLoop_cons (patience : Nat) (st : ESState) (e : Nat) (m : ℚ)
    (ms : List ℚ) :
    esLoop patience st e (m :: ms) =
      if (esStep patience st m).2 then FitOutcome.earlyStopped (e + 1)
      else esLoop patience (esStep patience st m).1 (e + 1) ms := rfl

/-- Auxiliary: from any monitor state whose best is `b`, a run of
non-improving epochs long enough to exhaust the patience makes the epoch
loop halt within those epochs. -/
lemma esLoop_halts_of_nonimproving (patience : Nat) (b : ℚ) :
    ∀ (ms : List ℚ) (st : ESState) (e : Nat) (rest : List ℚ),
      st.best = some b → (∀ x ∈ ms, b ≤ x) →
      patience ≤ st.wait + ms.length → 0 < ms.length →
      ∃ k, esLoop patience st e (ms ++ rest) = FitOutcome.earlyStopped k ∧
        k ≤ e + ms.length
  | [], _, _, _ => by
    intro _ _ _ hpos
    exact absurd hpos (by simp)
  | m :: ms, st, e, rest => by
    intro hbest hni hpat _
    have hnimp : esImproved st m = false := by
      rw [esImproved, hbest]
      simp only [decide_eq_false_iff_not, not_lt]
      exact hni m (List.mem_cons_self m ms)
    rw [List.cons_append, esLoop_cons, esStep, hnimp]
    simp only [Bool.false_eq_true, if_false]
    by_cases hstop : patience ≤ st.wait + 1
    · refine ⟨e + 1, ?_, by simp only [List.length_cons]; omega⟩
      simp [hstop]
    · rcases esLoop_halts_of_nonimproving patience b ms
        ⟨st.best, st.wait + 1⟩ (e + 1) rest hbest
        (fun x hx => hni x (List.mem_cons_of_mem m hx))
        (by simp only [List.length_cons] at hpat; simp; omega)
        (by simp only [List.length_cons] at hpat; omega) with ⟨k, hk, hle⟩
      refine ⟨k, ?_, by simp only [List.length_cons]; omega⟩
      simpa [hstop] using hk

/-- Auxiliary: a non-improving streak shorter than the remaining patience
is tolerated — the loop does not halt during it, only the wait counter and
the epoch counter advance. -/
lemma esLoop_tolerates_short_streak (patience : Nat) (b : ℚ) :
    ∀ (ms : List ℚ) (w e : Nat) (rest : List ℚ),
      (∀ x ∈ ms, b ≤ x) → w + ms.length < patience →
      esLoop patience ⟨some b, w⟩ e (ms ++ rest) =
        esLoop patience ⟨some b, w + ms.length⟩ (e + ms.length) rest
  | [], w, e, rest => by simp
  | m :: ms, w, e, rest => by
    intro hni hlt
    have hnimp : esImproved ⟨some b, w⟩ m = false := by
      rw [esImproved]
      simp only [decide_eq_false_iff_not, not_lt]
      exact hni m (List.mem_cons_self m ms)
    have hstop : ¬ patience ≤ w + 1 := by
      simp only [List.length_cons] at hlt
      omega
    rw [List.cons_append, esLoop_cons, esStep, hnimp]
    simp only [Bool.false_eq_true, if_false, decide_eq_true_eq,
      if_neg hstop]
    rw [esLoop_tolerates_short_streak patience b ms (w + 1) (e + 1) rest
      (fun x hx => hni x (List.mem_cons_of_mem m hx))
      (by simp only [List.length_cons] at hlt; omega)]
    have h1 : w + 1 + ms.length = w + (m :: ms).length := by
      simp only [List.length_cons]
      omega
    have h2 : e + 1 + ms.length = e + (m :: ms).length := by
      simp only [List.length_cons]
      omega
    rw [h1, h2]

/-- Auxiliary: the epoch loop always terminates in one of the two normal
outcomes — completion of all scheduled epochs, or a graceful early stop at
an epoch within the schedule. -/
lemma esLoop_total (patience : Nat) :
    ∀ (ms : List ℚ) (st : ESState) (e : Nat),
      esLoop patience st e ms = FitOutcome.completed ∨
      ∃ k, esLoop patience st e ms = FitOutcome.earlyStopped k ∧
        k ≤ e + ms.length
  | [], _, _ => Or.inl rfl
  | m :: ms, st, e => by
    rw [esLoop_cons]
    by_cases hstop : (esStep patience st m).2 = true
    · refine Or.inr ⟨e + 1, ?_, by simp only [List.length_cons]; omega⟩
      simp [hstop]
    · rcases esLoop_total patience ms (esStep patience st m).1 (e + 1) with
        hc | ⟨k, hk, hle⟩
      · exact Or.inl (by simpa [hstop] using hc)
      · exact Or.inr ⟨k, by simpa [hstop] using hk,
          by simp only [List.length_cons]; omega⟩

/-- `C5`: the early-stopping monitor is configured on `validation_loss`
with patience 5 in mode `min` and `strict=False`; consulted once per
epoch, it halts the epoch loop within `patience` epochs once the metric
fails to improve for `patience` consecutive epochs, tolerates a shorter
non-improving streak (only its counters advance, and an improvement resets
the counter), and every run ends in one of the two graceful outcomes,
never an error. -/
theorem c5_early_stopping (patience : Nat) (b : ℚ) (ms rest : List ℚ)
    (e : Nat) (hlen : ms.length = patience) (hpos : 0 < patience)
    (hni : ∀ x ∈ ms, b ≤ x) :
    (∃ k, esLoop patience ⟨some b, 0⟩ e (ms ++ rest) =
      FitOutcome.earlyStopped k ∧ k ≤ e + patience) ∧
    (∀ (st : ESState) (x : ℚ), esImproved st x = true →
      esStep patience st x = (⟨some x, 0⟩, false)) ∧
    (∀ (ms' : List ℚ) (w e' : Nat) (rest' : List ℚ),
      (∀ x ∈ ms', b ≤ x) → w + ms'.length < patience →
      esLoop patience ⟨some b, w⟩ e' (ms' ++ rest') =
        esLoop patience ⟨some b, w + ms'.length⟩ (e' + ms'.length) rest') ∧
    (∀ metrics, trainerFit patience metrics = FitOutcome.completed ∨
      ∃ k, trainerFit patience metrics = FitOutcome.earlyStopped k ∧
        k ≤ metrics.length) ∧
    early_stop_callback.monitor = "validation_loss" ∧
    early_stop_callback.patience = 5 ∧
    early_stop_callback.mode = "min" ∧
    early_stop_callback.strict = false := by
  refine ⟨?_, ?_, ?_, ?_, rfl, rfl, rfl, rfl⟩
  · have := esLoop_halts_of_nonimproving patience b ms ⟨some b, 0⟩ e rest
      rfl hni (by omega) (by omega)
    rcases this with ⟨k, hk, hle⟩
    exact ⟨k, hk, by omega⟩
  · intro st x himp
    rw [esStep, himp]
    simp
  · exact fun ms' w e' rest' h1 h2 =>
      esLoop_tolerates_short_streak patience b ms' w e' rest' h1 h2
  · exact fun metrics => by
      simpa using esLoop_total patience metrics ⟨none, 0⟩ 0

/-- `C5` witness: with patience 5, five consecutive non-improving
validation losses starting from best 1 stop the run within five epochs. -/
theorem c5_early_stopping_witness :
    ∃ k, esLoop 5 ⟨some 1, 0⟩ 0 ([1, 2, 3, 2, 1] ++ []) =
      FitOutcome.earlyStopped k ∧ k ≤ 0 + 5 :=
  (c5_early_stopping 5 1 [1, 2, 3, 2, 1] [] 0 rfl (by decide)
    (by decide)).1
